import Mathlib

/-!
# ilog: a leveled logging facade and its four backends

A shallow embedding of `ilog.go`.  Effects are made explicit: every method
takes the trace of effects performed so far (`World`) and returns the
extended trace.  Pointer receivers become state passing, Go `int` becomes
`Int` (only comparisons and equality tests are performed on levels, so no
wrap-around can occur), nil-able pointers and interfaces become `Option`.
-/

namespace ilog

/-! ## Constants (ilog.go, lines 10-23) -/

/-- Severity `DEBUG` (`iota` = 0). -/
def DEBUG : Int := 0
/-- Severity `INFO` (`iota` = 1). -/
def INFO : Int := 1
/-- Severity `WARN` (`iota` = 2). -/
def WARN : Int := 2
/-- Severity `ERROR` (`iota` = 3). -/
def ERROR : Int := 3
/-- Severity `NONE` (`iota` = 4). -/
def NONE : Int := 4

/-- Escape sequence `"\033[0m"` (octal 033 is hexadecimal 1b). -/
def RESET : String := "\x1b[0m"
/-- Escape sequence `"\033[31m"`. -/
def RED : String := "\x1b[31m"
/-- Escape sequence `"\033[33m"`. -/
def YELLOW : String := "\x1b[33m"
/-- Escape sequence `"\033[32m"`. -/
def GREEN : String := "\x1b[32m"

/-! ## The environment: files, errors, effects -/

/-- An open `*os.File`, identified by its descriptor. -/
abbrev File := Nat

/-- A bound `testing.TB` value, identified by a handle. -/
abbrev TB := Nat

/-- Go `error` values that occur in the program. -/
inductive GoError where
  /-- An error produced by the operating system or by the logging engine. -/
  | external (text : String)
  /-- The value of `errors.New(text)`. -/
  | errorString (text : String)
  deriving DecidableEq, Repr

/-- One observable effect. -/
inductive Event where
  /-- The call `f.WriteString(s)` on an open file. -/
  | write (f : File) (s : String)
  /-- A leveled call into the structured engine (`sugared` tells which
  calling convention received it). -/
  | engineCall (sugared : Bool) (lvl : Int) (msg : String)
  /-- An entry the engine accepted and sent to its output paths. -/
  | engineEntry (paths : List String) (lvl : Int) (msg : String)
  /-- The call `t.Log(s)` on a test context. -/
  | tbLog (t : TB) (s : String)
  /-- The call `t.Error(s)` on a test context. -/
  | tbError (t : TB) (s : String)
  deriving DecidableEq, Repr

/-- The trace of effects, oldest first. -/
abbrev World := List Event

/-- How a call ends: it returns to its caller with a result, it panics (a
run-time fault such as a nil dereference), or it exhausts the goroutine
stack (the run-time's fatal "stack overflow"). -/
inductive Outcome (α : Type) where
  | returned (a : α)
  | panicked
  | stackOverflow
  deriving DecidableEq, Repr

/-- Go `len` on a string: the number of bytes. -/
def len (s : String) : Nat := s.utf8ByteSize

/-- Flag `os.O_WRONLY` (Linux value). -/
def O_WRONLY : Nat := 1
/-- Flag `os.O_APPEND` (Linux value, octal 02000). -/
def O_APPEND : Nat := 1024

/-- The operating system as seen by the loggers: `os.OpenFile(name, flag,
perm)` either yields an open file or an error. -/
structure OS where
  OpenFile : String → Nat → Nat → Except GoError File

/-- The standard error stream `os.Stderr` (descriptor 2). -/
def Stderr : File := 2

/-- Method `(*os.File).WriteString`: on a nil file it returns `ErrInvalid`
without writing; otherwise the call is recorded.  The returned count and
error are not modelled: every caller in `ilog.go` discards them. -/
def WriteString (file : Option File) (s : String) (w : World) : World :=
  match file with
  | none => w
  | some f => w ++ [Event.write f s]

/-! ## EmptyLogger (lines 34-59) -/

/-- The logger that turns logging off. -/
structure EmptyLogger where
  deriving DecidableEq, Repr

def EmptyLogger.Init (l : EmptyLogger) : EmptyLogger × Option GoError := (l, none)
def EmptyLogger.Info (_l : EmptyLogger) (_output : String) (w : World) : World := w
def EmptyLogger.Error (_l : EmptyLogger) (_output : String) (w : World) : World := w
def EmptyLogger.Warn (_l : EmptyLogger) (_output : String) (w : World) : World := w
def EmptyLogger.Debug (_l : EmptyLogger) (_output : String) (w : World) : World := w

/-! ## SimpleLogger (lines 61-128) -/

/-- The logger writing to stderr or to a path.  The field `prefix_` is the
source's `prefix`. -/
structure SimpleLogger where
  Path : String
  file : Option File
  level : Int
  prefix_ : Bool
  deriving DecidableEq, Repr

/-- Method `Level`: sets the threshold. -/
def SimpleLogger.Level (l : SimpleLogger) (level : Int) : SimpleLogger :=
  { l with level := level }

/-- Method `Init`: attaches the logger to stderr or to `Path`, opened with
`O_APPEND|O_WRONLY` and permission 0644 (decimal 420).  Returns the updated
logger and the returned `err`. -/
def SimpleLogger.Init (os : OS) (l : SimpleLogger) : SimpleLogger × Option GoError :=
  if len l.Path == 0 then
    ({ l with file := some Stderr, prefix_ := true }, none)
  else
    match os.OpenFile l.Path (O_APPEND ||| O_WRONLY) 420 with
    | .ok f => ({ l with file := some f, prefix_ := false }, none)
    | .error e => ({ l with file := none, prefix_ := false }, some e)

def SimpleLogger.Info (l : SimpleLogger) (output : String) (w : World) : World :=
  if l.level > INFO then w
  else WriteString l.file (output ++ "\n") w

def SimpleLogger.Error (l : SimpleLogger) (output : String) (w : World) : World :=
  if l.level > ERROR then w
  else if l.prefix_ then WriteString l.file (RED ++ output ++ RESET ++ "\n") w
  else WriteString l.file (output ++ "\n") w

def SimpleLogger.Warn (l : SimpleLogger) (output : String) (w : World) : World :=
  if l.level > WARN then w
  else if l.prefix_ then WriteString l.file (YELLOW ++ output ++ RESET ++ "\n") w
  else WriteString l.file (output ++ "\n") w

def SimpleLogger.Debug (l : SimpleLogger) (output : String) (w : World) : World :=
  if l.level > DEBUG then w
  else if l.prefix_ then WriteString l.file (GREEN ++ output ++ RESET ++ "\n") w
  else WriteString l.file (output ++ "\n") w

/-! ## The structured engine used by ZapWrap

The engine is the external package `go.uber.org/zap`; only the part of it
that `ilog.go` calls is described. -/

namespace zap

/-- Modelled from the spec: the engine's own level enumeration (package
`go.uber.org/zap`, not under src/), "debug". The numeric values are the
ones of the package: Debug = -1, Info = 0, Warn = 1, Error = 2, DPanic = 3. -/
def DebugLevel : Int := -1
/-- Modelled from the spec: engine level "info". -/
def InfoLevel : Int := 0
/-- Modelled from the spec: engine level "warn". -/
def WarnLevel : Int := 1
/-- Modelled from the spec: engine level "error". -/
def ErrorLevel : Int := 2
/-- Modelled from the spec: engine level `DPanicLevel`, the "level above
all" of the four leveled calls. -/
def DPanicLevel : Int := 3

/-- Modelled from the spec: the engine's configuration, of which `ilog.go`
touches the minimum level and the output paths. -/
structure Config where
  Level : Int
  OutputPaths : List String
  deriving DecidableEq, Repr

/-- Modelled from the spec: the "production-grade" configuration; its
minimum level is Info and it writes to the default error stream. -/
def NewProductionConfig : Config :=
  { Level := InfoLevel, OutputPaths := ["stderr"] }

/-- Modelled from the spec: a built engine instance (`*zap.Logger`). -/
structure Logger where
  level : Int
  outputPaths : List String
  callerSkip : Nat
  deriving DecidableEq, Repr

/-- Modelled from the spec: the convenience wrapper (`*zap.SugaredLogger`)
around an engine instance. -/
structure SugaredLogger where
  base : Logger
  deriving DecidableEq, Repr

/-- Modelled from the spec: what the engine needs from its surroundings:
opening the configured output destinations may fail. -/
structure Sinks where
  openSinks : List String → Option GoError

/-- Modelled from the spec: `config.Build(zap.AddCallerSkip(skip))` yields
an engine with the configured level and paths, or no engine and an error
when a destination cannot be opened. -/
def Config.Build (env : Sinks) (cfg : Config) (skip : Nat) : Except GoError Logger :=
  match env.openSinks cfg.OutputPaths with
  | some e => .error e
  | none => .ok { level := cfg.Level, outputPaths := cfg.OutputPaths, callerSkip := skip }

/-- Modelled from the spec: the engine's level check, a level passes the
minimum when it is at least the minimum. -/
def Enabled (minimum lvl : Int) : Bool := decide (minimum ≤ lvl)

/-- Modelled from the spec: one leveled call received by an engine
instance; "the underlying engine independently enforces its own mapped
threshold". The call is recorded, and so is the entry when it passes the
level check (the sampling of repeated entries is not described). -/
def Logger.log (g : Logger) (sugared : Bool) (lvl : Int) (msg : String) (w : World) : World :=
  if Enabled g.level lvl then
    w ++ [Event.engineCall sugared lvl msg, Event.engineEntry g.outputPaths lvl msg]
  else
    w ++ [Event.engineCall sugared lvl msg]

/-- Modelled from the spec: `(*zap.Logger).Sugar()`; it copies the
receiver, so a nil receiver is a nil dereference. -/
def Logger.Sugar (g : Option Logger) : Outcome SugaredLogger :=
  match g with
  | none => .panicked
  | some l => .returned { base := { l with callerSkip := l.callerSkip + 2 } }

/-- Modelled from the spec: a leveled method of `*zap.Logger`; a nil
receiver is a nil dereference. -/
def Logger.call (g : Option Logger) (lvl : Int) (msg : String) (w : World) : Outcome World :=
  match g with
  | none => .panicked
  | some l => .returned (l.log false lvl msg w)

/-- Modelled from the spec: a leveled method of `*zap.SugaredLogger`. -/
def SugaredLogger.call (s : Option SugaredLogger) (lvl : Int) (msg : String) (w : World) :
    Outcome World :=
  match s with
  | none => .panicked
  | some l => .returned (l.base.log true lvl msg w)

end zap

/-! ## ZapWrap (lines 130-218) -/

/-- The eight function literals that `ZapWrap.Init` stores in the fields
`infoFunc`, `errorFunc`, `debugFunc`, `warnFunc`.  Each captures the
receiver `z` by reference, so its body is evaluated against the receiver
at the time of the call. -/
inductive Func where
  /-- Body `z.SugarLogger.Info(output)` (line 172). -/
  | sugarInfo
  /-- Body `z.SugarLogger.Error(output)` (line 175). -/
  | sugarError
  /-- Body `z.SugarLogger.Debug(output)` (line 178). -/
  | sugarDebug
  /-- Body `z.SugarLogger.Warn(output)` (line 181). -/
  | sugarWarn
  /-- Body `z.ZapLogger.Info(output)` (line 185). -/
  | zapInfo
  /-- Body `z.ZapLogger.Error(output)` (line 188). -/
  | zapError
  /-- Body `z.Debug(output)` (line 191). -/
  | selfDebug
  /-- Body `z.Warn(output)` (line 194). -/
  | selfWarn
  deriving DecidableEq, Repr

/-- The wrapper around the structured engine. A nil function field is
`none`. -/
structure ZapWrap where
  Sugar : Bool
  Paths : List String
  Level : Int
  ZapLogger : Option zap.Logger
  SugarLogger : Option zap.SugaredLogger
  infoFunc : Option Func
  errorFunc : Option Func
  debugFunc : Option Func
  warnFunc : Option Func
  deriving DecidableEq, Repr

/-- The configuration that `ZapWrap.Init` hands to `Build` (lines 152-167):
the production configuration, and, only when `Paths` is not empty, the
paths and the mapped level.  A `Level` outside the five constants leaves
the level alone (the `switch` has no default). -/
def ZapWrap.config (z : ZapWrap) : zap.Config :=
  let config := zap.NewProductionConfig
  if z.Paths.length > 0 then
    let config := { config with OutputPaths := z.Paths }
    if z.Level = DEBUG then { config with Level := zap.DebugLevel }
    else if z.Level = INFO then { config with Level := zap.InfoLevel }
    else if z.Level = WARN then { config with Level := zap.WarnLevel }
    else if z.Level = ERROR then { config with Level := zap.ErrorLevel }
    else if z.Level = NONE then { config with Level := zap.DPanicLevel }
    else config
  else config

/-- Method `Init` (lines 151-198).  The error of `Build` is discarded
(`z.ZapLogger, _ = ...`) and the only `return` is `return nil`. -/
def ZapWrap.Init (env : zap.Sinks) (z : ZapWrap) : Outcome (ZapWrap × Option GoError) :=
  let config := z.config
  let built : Option zap.Logger :=
    match config.Build env 2 with
    | .ok g => some g
    | .error _ => none
  let z := { z with ZapLogger := built }
  if z.Sugar then
    match zap.Logger.Sugar z.ZapLogger with
    | .returned s =>
      .returned ({ z with SugarLogger := some s, infoFunc := some .sugarInfo,
                          errorFunc := some .sugarError, debugFunc := some .sugarDebug,
                          warnFunc := some .sugarWarn }, none)
    | .panicked => .panicked
    | .stackOverflow => .stackOverflow
  else
    .returned ({ z with infoFunc := some .zapInfo, errorFunc := some .zapError,
                        debugFunc := some .selfDebug, warnFunc := some .selfWarn }, none)

mutual
/-- Calling the function value stored in a field of `z`.  The first
argument bounds the depth of the call stack still available. -/
def ZapWrap.apply : Nat → ZapWrap → Option Func → String → World → Outcome World
  | 0, _, _, _, _ => .stackOverflow
  | _ + 1, _, none, _, _ => .panicked
  | _ + 1, z, some .sugarInfo, output, w => zap.SugaredLogger.call z.SugarLogger zap.InfoLevel output w
  | _ + 1, z, some .sugarError, output, w => zap.SugaredLogger.call z.SugarLogger zap.ErrorLevel output w
  | _ + 1, z, some .sugarDebug, output, w => zap.SugaredLogger.call z.SugarLogger zap.DebugLevel output w
  | _ + 1, z, some .sugarWarn, output, w => zap.SugaredLogger.call z.SugarLogger zap.WarnLevel output w
  | _ + 1, z, some .zapInfo, output, w => zap.Logger.call z.ZapLogger zap.InfoLevel output w
  | _ + 1, z, some .zapError, output, w => zap.Logger.call z.ZapLogger zap.ErrorLevel output w
  | n + 1, z, some .selfDebug, output, w => ZapWrap.Debug n z output w
  | n + 1, z, some .selfWarn, output, w => ZapWrap.Warn n z output w
/-- Method `Warn` (line 210): `z.warnFunc(output)`. -/
def ZapWrap.Warn : Nat → ZapWrap → String → World → Outcome World
  | 0, _, _, _ => .stackOverflow
  | n + 1, z, output, w => ZapWrap.apply n z z.warnFunc output w
/-- Method `Debug` (line 214): `z.debugFunc(output)`. -/
def ZapWrap.Debug : Nat → ZapWrap → String → World → Outcome World
  | 0, _, _, _ => .stackOverflow
  | n + 1, z, output, w => ZapWrap.apply n z z.debugFunc output w
end

/-- Method `Info` (line 201): `z.infoFunc(output)`. -/
def ZapWrap.Info : Nat → ZapWrap → String → World → Outcome World
  | 0, _, _, _ => .stackOverflow
  | n + 1, z, output, w => ZapWrap.apply n z z.infoFunc output w

/-- Method `Error` (line 206): `z.errorFunc(output)`. -/
def ZapWrap.Error : Nat → ZapWrap → String → World → Outcome World
  | 0, _, _, _ => .stackOverflow
  | n + 1, z, output, w => ZapWrap.apply n z z.errorFunc output w

/-! ## testLogger (lines 220-259) -/

/-- The logger for tests; `t` is the bound `testing.TB`, nil when absent. -/
structure testLogger where
  t : Option TB
  deriving DecidableEq, Repr

/-- Method `Init` (lines 251-256). -/
def testLogger.Init (l : testLogger) : testLogger × Option GoError :=
  if l.t == none then
    (l, some (GoError.errorString "You must set testLogger.t"))
  else
    (l, none)

/-- Function `NewTestLogger` (lines 226-230): builds the logger, calls
`Init` on it, drops the returned error and returns the logger. -/
def NewTestLogger (t : Option TB) : testLogger :=
  let ret : testLogger := { t := t }
  let (ret, _) := ret.Init
  ret

/-- Method `Info` (line 233): `t.t.Log(output)`; a method call on a nil
interface value is a nil dereference. -/
def testLogger.Info (l : testLogger) (output : String) (w : World) : Outcome World :=
  match l.t with
  | none => .panicked
  | some t => .returned (w ++ [Event.tbLog t output])

/-- Method `Error` (line 238): `t.t.Error(output)`. -/
def testLogger.Error (l : testLogger) (output : String) (w : World) : Outcome World :=
  match l.t with
  | none => .panicked
  | some t => .returned (w ++ [Event.tbError t output])

/-- Method `Warn` (line 242): `t.t.Error(output)`. -/
def testLogger.Warn (l : testLogger) (output : String) (w : World) : Outcome World :=
  match l.t with
  | none => .panicked
  | some t => .returned (w ++ [Event.tbError t output])

/-- Method `Debug` (line 246): `t.t.Log(output)`. -/
def testLogger.Debug (l : testLogger) (output : String) (w : World) : Outcome World :=
  match l.t with
  | none => .panicked
  | some t => .returned (w ++ [Event.tbLog t output])

/-- Modelled from the spec: the harness's failure-reporting call "marks the
enclosing test as failed" and its informational log is a "non-fatal
record"; the run of context `t` is failed once `t.Error` was called. -/
def Failed (t : TB) (w : World) : Bool :=
  w.any fun e =>
    match e with
    | Event.tbError u _ => u == t
    | _ => false

/-! ## Sample inputs -/

/-- A sample operating system: the only file that can be opened is
"/var/log/app.log", on descriptor 3. -/
def sampleOS : OS where
  OpenFile := fun name _ _ =>
    if name = "/var/log/app.log" then .ok 3
    else .error (GoError.external "open: no such file or directory")

/-- A sample logger value before `Init`, writing to stderr. -/
def stderrLogger : SimpleLogger :=
  { Path := "", file := none, level := 0, prefix_ := false }

/-- A sample logger value before `Init`, writing to a file. -/
def fileLogger : SimpleLogger :=
  { Path := "/var/log/app.log", file := none, level := 0, prefix_ := false }

/-- Surroundings in which every output destination of the engine opens. -/
def openSinks : zap.Sinks where
  openSinks := fun _ => none

/-- Surroundings in which only the default error stream opens. -/
def closedSinks : zap.Sinks where
  openSinks := fun paths =>
    if paths = ["stderr"] then none
    else some (GoError.external "open sink: permission denied")

/-- The composite literal `ZapWrap{Sugar: s, Paths: p, Level: v}`: the other
fields are nil. -/
def newZapWrap (s : Bool) (p : List String) (v : Int) : ZapWrap :=
  { Sugar := s, Paths := p, Level := v, ZapLogger := none, SugarLogger := none,
    infoFunc := none, errorFunc := none, debugFunc := none, warnFunc := none }

/-- The mapping of facade levels to engine levels as the specification words
it: DEBUG to debug, INFO to info, WARN to warn, ERROR to error, NONE to
DPanic.  (Stated from the specification, to be compared with
`ZapWrap.config`.) -/
def specLevelMap (T : Int) : Int :=
  if T = DEBUG then zap.DebugLevel
  else if T = INFO then zap.InfoLevel
  else if T = WARN then zap.WarnLevel
  else if T = ERROR then zap.ErrorLevel
  else zap.DPanicLevel

/-! ## Auxiliary facts -/

theorem utf8ByteSize_go_pos (c : Char) (cs : List Char) :
    0 < String.utf8ByteSize.go (c :: cs) := by
  have h := Char.utf8Size_pos c
  simp only [String.utf8ByteSize.go]
  omega

/-- A string has no bytes exactly when it is the empty string. -/
theorem len_eq_zero_iff (s : String) : len s = 0 ↔ s = "" := by
  constructor
  · intro h
    cases s with
    | mk data =>
      cases data with
      | nil => rfl
      | cons c cs =>
        have hp := utf8ByteSize_go_pos c cs
        simp only [len, String.utf8ByteSize] at h
        omega
  · intro h
    subst h
    rfl

/-- `Init` with an empty `Path`. -/
theorem SimpleLogger.Init_empty (os : OS) (l : SimpleLogger) (h : l.Path = "") :
    SimpleLogger.Init os l = ({ l with file := some Stderr, prefix_ := true }, none) := by
  have h0 : len l.Path = 0 := (len_eq_zero_iff _).2 h
  simp [SimpleLogger.Init, h0]

/-- `Init` with a non-empty `Path`. -/
theorem SimpleLogger.Init_path (os : OS) (l : SimpleLogger) (h : l.Path ≠ "") :
    SimpleLogger.Init os l =
      match os.OpenFile l.Path (O_APPEND ||| O_WRONLY) 420 with
      | .ok f => ({ l with file := some f, prefix_ := false }, none)
      | .error e => ({ l with file := none, prefix_ := false }, some e) := by
  have h0 : len l.Path ≠ 0 := fun hz => h ((len_eq_zero_iff _).1 hz)
  simp [SimpleLogger.Init, h0]

/-- `Init` never touches the threshold. -/
theorem SimpleLogger.Init_level (os : OS) (l : SimpleLogger) :
    (SimpleLogger.Init os l).1.level = l.level := by
  unfold SimpleLogger.Init
  split
  · rfl
  · split <;> rfl

/-- After an `Init` that returned no error the destination is bound. -/
theorem SimpleLogger.Init_file (os : OS) (l : SimpleLogger)
    (h : (SimpleLogger.Init os l).2 = none) :
    ∃ f, (SimpleLogger.Init os l).1.file = some f := by
  by_cases hp : l.Path = ""
  · rw [SimpleLogger.Init_empty os l hp]
    exact ⟨Stderr, rfl⟩
  · rw [SimpleLogger.Init_path os l hp] at h ⊢
    cases ho : os.OpenFile l.Path (O_APPEND ||| O_WRONLY) 420 with
    | ok f => exact ⟨f, rfl⟩
    | error e => simp [ho] at h

/-- `Level` and `Init` commute. -/
theorem SimpleLogger.Init_Level_comm (os : OS) (l : SimpleLogger) (T : Int) :
    (SimpleLogger.Init os l).1.Level T = (SimpleLogger.Init os (l.Level T)).1 := by
  unfold SimpleLogger.Init SimpleLogger.Level
  simp only []
  split
  · rfl
  · split <;> rfl

/-! ## The claims about SimpleLogger -/

/-- C1: for a SimpleLogger whose threshold was set to `T` with `Level` (before
or after `Init`, the two orders give the same logger) and whose `Init`
returned no error, each leveled call at level L (Debug = 0, Info = 1, Warn = 2,
Error = 3) appends exactly one write, on the bound destination, when
`T ≤ L`, and leaves the trace as it was when `L < T`.  With `T = NONE` no
call writes; with `T = DEBUG` all four write. -/
theorem SimpleLogger_threshold_gates_writes (os : OS) (l l' : SimpleLogger) (T : Int)
    (m : String) (w : World)
    (hInit : SimpleLogger.Init os (l.Level T) = (l', none)) :
    (SimpleLogger.Init os l).1.Level T = l' ∧
    ∃ f, l'.file = some f ∧
      ((T ≤ DEBUG → ∃ s, l'.Debug m w = w ++ [Event.write f s]) ∧
        (DEBUG < T → l'.Debug m w = w)) ∧
      ((T ≤ INFO → ∃ s, l'.Info m w = w ++ [Event.write f s]) ∧
        (INFO < T → l'.Info m w = w)) ∧
      ((T ≤ WARN → ∃ s, l'.Warn m w = w ++ [Event.write f s]) ∧
        (WARN < T → l'.Warn m w = w)) ∧
      ((T ≤ ERROR → ∃ s, l'.Error m w = w ++ [Event.write f s]) ∧
        (ERROR < T → l'.Error m w = w)) ∧
      (T = NONE → l'.Debug m w = w ∧ l'.Info m w = w ∧ l'.Warn m w = w ∧ l'.Error m w = w) ∧
      (T = DEBUG → ∃ s₁ s₂ s₃ s₄, l'.Debug m w = w ++ [Event.write f s₁] ∧
        l'.Info m w = w ++ [Event.write f s₂] ∧ l'.Warn m w = w ++ [Event.write f s₃] ∧
        l'.Error m w = w ++ [Event.write f s₄]) := by
  have hl' : (SimpleLogger.Init os (l.Level T)).1 = l' := by rw [hInit]
  have herr : (SimpleLogger.Init os (l.Level T)).2 = none := by rw [hInit]
  have hlev : l'.level = T := by
    rw [← hl', SimpleLogger.Init_level]
    rfl
  obtain ⟨f, hf⟩ := SimpleLogger.Init_file os (l.Level T) herr
  rw [hl'] at hf
  refine ⟨by rw [SimpleLogger.Init_Level_comm, hl'], f, hf, ?_⟩
  have hD : (T ≤ DEBUG → ∃ s, l'.Debug m w = w ++ [Event.write f s]) ∧
      (DEBUG < T → l'.Debug m w = w) := by
    constructor
    · intro h
      have : ¬ (T > DEBUG) := not_lt.mpr h
      cases hp : l'.prefix_ <;>
        simp [SimpleLogger.Debug, hlev, hf, hp, this, WriteString]
    · intro h
      simp [SimpleLogger.Debug, hlev, h]
  have hI : (T ≤ INFO → ∃ s, l'.Info m w = w ++ [Event.write f s]) ∧
      (INFO < T → l'.Info m w = w) := by
    constructor
    · intro h
      have : ¬ (T > INFO) := not_lt.mpr h
      simp [SimpleLogger.Info, hlev, hf, this, WriteString]
    · intro h
      simp [SimpleLogger.Info, hlev, h]
  have hW : (T ≤ WARN → ∃ s, l'.Warn m w = w ++ [Event.write f s]) ∧
      (WARN < T → l'.Warn m w = w) := by
    constructor
    · intro h
      have : ¬ (T > WARN) := not_lt.mpr h
      cases hp : l'.prefix_ <;>
        simp [SimpleLogger.Warn, hlev, hf, hp, this, WriteString]
    · intro h
      simp [SimpleLogger.Warn, hlev, h]
  have hE : (T ≤ ERROR → ∃ s, l'.Error m w = w ++ [Event.write f s]) ∧
      (ERROR < T → l'.Error m w = w) := by
    constructor
    · intro h
      have : ¬ (T > ERROR) := not_lt.mpr h
      cases hp : l'.prefix_ <;>
        simp [SimpleLogger.Error, hlev, hf, hp, this, WriteString]
    · intro h
      simp [SimpleLogger.Error, hlev, h]
  refine ⟨hD, hI, hW, hE, ?_, ?_⟩
  · intro hT
    subst hT
    exact ⟨hD.2 (by decide), hI.2 (by decide), hW.2 (by decide), hE.2 (by decide)⟩
  · intro hT
    subst hT
    obtain ⟨s₁, h₁⟩ := hD.1 (by decide)
    obtain ⟨s₂, h₂⟩ := hI.1 (by decide)
    obtain ⟨s₃, h₃⟩ := hW.1 (by decide)
    obtain ⟨s₄, h₄⟩ := hE.1 (by decide)
    exact ⟨s₁, s₂, s₃, s₄, h₁, h₂, h₃, h₄⟩

theorem SimpleLogger_threshold_gates_writes_witness :
    SimpleLogger.Init sampleOS (stderrLogger.Level 2) =
        ({ Path := "", file := some Stderr, level := 2, prefix_ := true }, none) ∧
      (SimpleLogger.mk "" (some Stderr) 2 true).Info "hello" [] = [] ∧
      ∃ s, (SimpleLogger.mk "" (some Stderr) 2 true).Error "hello" [] = [Event.write Stderr s] := by
  have hInit : SimpleLogger.Init sampleOS (stderrLogger.Level 2) =
      ({ Path := "", file := some Stderr, level := 2, prefix_ := true }, none) := by decide
  obtain ⟨_, f, hf, _, hI, _, hE, _⟩ :=
    SimpleLogger_threshold_gates_writes sampleOS stderrLogger _ 2 "hello" [] hInit
  have hfe : f = Stderr := by
    have : some Stderr = some f := hf
    exact (Option.some.inj this).symm
  subst hfe
  exact ⟨hInit, hI.2 (by decide), hE.1 (by decide)⟩

/-- C2: with an empty `Path`, `Init` returns no error, binds the destination
to the default error stream and switches the colour prefix on; afterwards
every call the threshold permits appends exactly one write to that stream:
RED ++ m ++ RESET ++ newline for Error, YELLOW for Warn, GREEN for Debug, and
m ++ newline with no escape code for Info.  For instance Error("boom")
writes "\033[31mboom\033[0m\n". -/
theorem SimpleLogger_stderr_colours (os : OS) (l l' : SimpleLogger) (m : String) (w : World)
    (hPath : l.Path = "") (hInit : (SimpleLogger.Init os l).1 = l') :
    (SimpleLogger.Init os l).2 = none ∧
    l'.file = some Stderr ∧ l'.prefix_ = true ∧ l'.level = l.level ∧
    (l.level ≤ ERROR → l'.Error m w = w ++ [Event.write Stderr (RED ++ m ++ RESET ++ "\n")]) ∧
    (l.level ≤ WARN → l'.Warn m w = w ++ [Event.write Stderr (YELLOW ++ m ++ RESET ++ "\n")]) ∧
    (l.level ≤ DEBUG → l'.Debug m w = w ++ [Event.write Stderr (GREEN ++ m ++ RESET ++ "\n")]) ∧
    (l.level ≤ INFO → l'.Info m w = w ++ [Event.write Stderr (m ++ "\n")]) ∧
    (l.level ≤ ERROR → l'.Error "boom" w = w ++ [Event.write Stderr "\x1b[31mboom\x1b[0m\n"]) := by
  rw [SimpleLogger.Init_empty os l hPath] at hInit
  rw [SimpleLogger.Init_empty os l hPath]
  subst hInit
  refine ⟨rfl, rfl, rfl, rfl, ?_, ?_, ?_, ?_, ?_⟩
  · intro h
    have : ¬ (l.level > ERROR) := not_lt.mpr h
    simp [SimpleLogger.Error, this, WriteString]
  · intro h
    have : ¬ (l.level > WARN) := not_lt.mpr h
    simp [SimpleLogger.Warn, this, WriteString]
  · intro h
    have : ¬ (l.level > DEBUG) := not_lt.mpr h
    simp [SimpleLogger.Debug, this, WriteString]
  · intro h
    have : ¬ (l.level > INFO) := not_lt.mpr h
    simp [SimpleLogger.Info, this, WriteString]
  · intro h
    have : ¬ (l.level > ERROR) := not_lt.mpr h
    have hs : RED ++ "boom" ++ RESET ++ "\n" = "\x1b[31mboom\x1b[0m\n" := by decide
    simp [SimpleLogger.Error, this, WriteString, hs]

theorem SimpleLogger_stderr_colours_witness :
    (SimpleLogger.mk "" (some Stderr) 0 true).Error "boom" [] =
      [Event.write Stderr "\x1b[31mboom\x1b[0m\n"] :=
  (SimpleLogger_stderr_colours sampleOS stderrLogger _ "boom" [] rfl (by decide)).2.2.2.2.2.2.2.2
    (by decide)

/-- C3: with a non-empty `Path` that opens successfully (as file `f`),
`Init` returns no error, binds the destination to `f` and switches the
colour prefix off; afterwards each of Debug, Info, Warn, Error that the
threshold permits appends exactly one write of m ++ newline to `f`. -/
theorem SimpleLogger_file_plain_lines (os : OS) (l l' : SimpleLogger) (f : File) (m : String)
    (w : World) (hPath : l.Path ≠ "")
    (hOpen : os.OpenFile l.Path (O_APPEND ||| O_WRONLY) 420 = Except.ok f)
    (hInit : (SimpleLogger.Init os l).1 = l') :
    (SimpleLogger.Init os l).2 = none ∧
    l'.file = some f ∧ l'.prefix_ = false ∧ l'.level = l.level ∧
    (l.level ≤ DEBUG → l'.Debug m w = w ++ [Event.write f (m ++ "\n")]) ∧
    (l.level ≤ INFO → l'.Info m w = w ++ [Event.write f (m ++ "\n")]) ∧
    (l.level ≤ WARN → l'.Warn m w = w ++ [Event.write f (m ++ "\n")]) ∧
    (l.level ≤ ERROR → l'.Error m w = w ++ [Event.write f (m ++ "\n")]) := by
  rw [SimpleLogger.Init_path os l hPath, hOpen] at hInit
  rw [SimpleLogger.Init_path os l hPath, hOpen]
  subst hInit
  refine ⟨rfl, rfl, rfl, rfl, ?_, ?_, ?_, ?_⟩
  · intro h
    have : ¬ (l.level > DEBUG) := not_lt.mpr h
    simp [SimpleLogger.Debug, this, WriteString]
  · intro h
    have : ¬ (l.level > INFO) := not_lt.mpr h
    simp [SimpleLogger.Info, this, WriteString]
  · intro h
    have : ¬ (l.level > WARN) := not_lt.mpr h
    simp [SimpleLogger.Warn, this, WriteString]
  · intro h
    have : ¬ (l.level > ERROR) := not_lt.mpr h
    simp [SimpleLogger.Error, this, WriteString]

theorem SimpleLogger_file_plain_lines_witness :
    (SimpleLogger.mk "/var/log/app.log" (some 3) 0 false).Warn "disk full" [] =
      [Event.write 3 "disk full\n"] :=
  (SimpleLogger_file_plain_lines sampleOS fileLogger _ 3 "disk full" [] (by decide) rfl
    (by decide)).2.2.2.2.2.2.1 (by decide)

/-- C4: `Init` returns the error `e` exactly when `Path` is not empty and
opening `Path` fails with `e` (the error of the open operation, unchanged);
so it returns an error if and only if `Path` is not empty and the open fails,
and with an empty `Path` it returns nil whatever the prior state of the
logger. -/
theorem SimpleLogger_Init_error_iff (os : OS) (l : SimpleLogger) :
    (∀ e, (SimpleLogger.Init os l).2 = some e ↔
      (l.Path ≠ "" ∧ os.OpenFile l.Path (O_APPEND ||| O_WRONLY) 420 = Except.error e)) ∧
    ((SimpleLogger.Init os l).2 ≠ none ↔
      (l.Path ≠ "" ∧ ∃ e, os.OpenFile l.Path (O_APPEND ||| O_WRONLY) 420 = Except.error e)) ∧
    (∀ (file : Option File) (level : Int) (pre : Bool),
      (SimpleLogger.Init os { Path := "", file := file, level := level, prefix_ := pre }).2
        = none) := by
  have key : ∀ e, (SimpleLogger.Init os l).2 = some e ↔
      (l.Path ≠ "" ∧ os.OpenFile l.Path (O_APPEND ||| O_WRONLY) 420 = Except.error e) := by
    intro e
    by_cases hp : l.Path = ""
    · rw [SimpleLogger.Init_empty os l hp]
      simp [hp]
    · rw [SimpleLogger.Init_path os l hp]
      cases ho : os.OpenFile l.Path (O_APPEND ||| O_WRONLY) 420 with
      | ok f => simp
      | error e' => simp [hp]
  refine ⟨key, ?_, ?_⟩
  · rw [Option.ne_none_iff_exists']
    constructor
    · rintro ⟨e, he⟩
      exact ⟨((key e).1 he).1, e, ((key e).1 he).2⟩
    · rintro ⟨hp, e, he⟩
      exact ⟨e, (key e).2 ⟨hp, he⟩⟩
  · intro file level pre
    rw [SimpleLogger.Init_empty os _ rfl]

/-! ## Facts about ZapWrap -/

/-- When the engine builds, `Init` returns nil and leaves the receiver wired
as its branch on `Sugar` says. -/
theorem ZapWrap.Init_built (env : zap.Sinks) (z : ZapWrap)
    (h : env.openSinks z.config.OutputPaths = none) :
    ZapWrap.Init env z =
      if z.Sugar then
        .returned ({ z with
          ZapLogger := some ⟨z.config.Level, z.config.OutputPaths, 2⟩,
          SugarLogger := some ⟨⟨z.config.Level, z.config.OutputPaths, 4⟩⟩,
          infoFunc := some .sugarInfo, errorFunc := some .sugarError,
          debugFunc := some .sugarDebug, warnFunc := some .sugarWarn }, none)
      else
        .returned ({ z with
          ZapLogger := some ⟨z.config.Level, z.config.OutputPaths, 2⟩,
          infoFunc := some .zapInfo, errorFunc := some .zapError,
          debugFunc := some .selfDebug, warnFunc := some .selfWarn }, none) := by
  cases hs : z.Sugar <;>
    simp [ZapWrap.Init, zap.Config.Build, h, hs, zap.Logger.Sugar]

/-- When the engine does not build, a non-sugared `Init` still returns nil,
with a nil engine. -/
theorem ZapWrap.Init_not_built (env : zap.Sinks) (z : ZapWrap) (e : GoError)
    (h : env.openSinks z.config.OutputPaths = some e) (hs : z.Sugar = false) :
    ZapWrap.Init env z =
      .returned ({ z with
        ZapLogger := none,
        infoFunc := some .zapInfo, errorFunc := some .zapError,
        debugFunc := some .selfDebug, warnFunc := some .selfWarn }, none) := by
  simp [ZapWrap.Init, zap.Config.Build, h, hs]

/-- A `debugFunc` whose body is `z.Debug(output)` makes `Debug` use up any
stack. -/
theorem ZapWrap.Debug_self (z : ZapWrap) (m : String) (w : World)
    (h : z.debugFunc = some .selfDebug) (n : Nat) :
    ZapWrap.Debug n z m w = .stackOverflow ∧ ZapWrap.Debug (n + 1) z m w = .stackOverflow := by
  induction n with
  | zero => simp [ZapWrap.Debug, ZapWrap.apply]
  | succ k ih =>
    refine ⟨ih.2, ?_⟩
    rw [ZapWrap.Debug, h, ZapWrap.apply]
    exact ih.1

/-- A `warnFunc` whose body is `z.Warn(output)` makes `Warn` use up any
stack. -/
theorem ZapWrap.Warn_self (z : ZapWrap) (m : String) (w : World)
    (h : z.warnFunc = some .selfWarn) (n : Nat) :
    ZapWrap.Warn n z m w = .stackOverflow ∧ ZapWrap.Warn (n + 1) z m w = .stackOverflow := by
  induction n with
  | zero => simp [ZapWrap.Warn, ZapWrap.apply]
  | succ k ih =>
    refine ⟨ih.2, ?_⟩
    rw [ZapWrap.Warn, h, ZapWrap.apply]
    exact ih.1

/-- With `Paths` not empty the configuration carries the paths. -/
theorem ZapWrap.config_paths (z : ZapWrap) (h : z.Paths ≠ []) :
    z.config.OutputPaths = z.Paths := by
  have hl : z.Paths.length > 0 := List.length_pos.mpr h
  unfold ZapWrap.config
  simp only [hl, if_true]
  repeat (first | rfl | split)

/-- With `Paths` not empty and `Level` one of the five constants, the
configured minimum is the mapped level. -/
theorem ZapWrap.config_level (z : ZapWrap) (h : z.Paths ≠ [])
    (hT : z.Level = DEBUG ∨ z.Level = INFO ∨ z.Level = WARN ∨ z.Level = ERROR ∨
      z.Level = NONE) :
    z.config.Level = specLevelMap z.Level := by
  have hl : z.Paths.length > 0 := List.length_pos.mpr h
  unfold ZapWrap.config specLevelMap
  simp only [hl, if_true]
  rcases hT with h | h | h | h | h <;> rw [h] <;> simp [DEBUG, INFO, WARN, ERROR, NONE]

/-- With `Paths` empty the configuration is the production one, whatever
`Level` is. -/
theorem ZapWrap.config_no_paths (z : ZapWrap) (h : z.Paths = []) :
    z.config = zap.NewProductionConfig := by
  simp [ZapWrap.config, h]

/-- A non-sugared `Init` returns nil whether or not the engine was built,
and wires `debugFunc` and `warnFunc` back to the receiver's own methods. -/
theorem ZapWrap.Init_plain (env : zap.Sinks) (z : ZapWrap) (hs : z.Sugar = false) :
    ∃ z', ZapWrap.Init env z = .returned (z', none) ∧
      z'.debugFunc = some .selfDebug ∧ z'.warnFunc = some .selfWarn := by
  cases h : env.openSinks z.config.OutputPaths with
  | none =>
    rw [ZapWrap.Init_built env z h, hs]
    exact ⟨_, rfl, rfl, rfl⟩
  | some e =>
    rw [ZapWrap.Init_not_built env z e h hs]
    exact ⟨_, rfl, rfl, rfl⟩

/-! ## The claims about ZapWrap -/

/-- C5 (as amended): for a ZapWrap whose `Level` is NONE, whose `Paths` is not
empty and whose engine builds, `Init` returns nil with the engine's minimum
level at DPanic; afterwards Info and Error (in both modes) and, in sugared
mode, Debug and Warn each return having invoked the engine exactly once, and
the engine emits no entry. -/
theorem ZapWrap_NONE_with_paths_emits_nothing (env : zap.Sinks) (z : ZapWrap) (m : String)
    (w : World) (n : Nat) (hLevel : z.Level = NONE) (hPaths : z.Paths ≠ [])
    (hOpen : env.openSinks z.Paths = none) :
    ∃ z', ZapWrap.Init env z = .returned (z', none) ∧
      z'.ZapLogger = some ⟨zap.DPanicLevel, z.Paths, 2⟩ ∧
      z'.Info (n + 2) m w = .returned (w ++ [Event.engineCall z.Sugar zap.InfoLevel m]) ∧
      z'.Error (n + 2) m w = .returned (w ++ [Event.engineCall z.Sugar zap.ErrorLevel m]) ∧
      (z.Sugar = true →
        z'.Debug (n + 2) m w = .returned (w ++ [Event.engineCall true zap.DebugLevel m]) ∧
        z'.Warn (n + 2) m w = .returned (w ++ [Event.engineCall true zap.WarnLevel m])) := by
  have hp := ZapWrap.config_paths z hPaths
  have hl := ZapWrap.config_level z hPaths (by simp [hLevel])
  rw [hLevel] at hl
  have hl' : z.config.Level = zap.DPanicLevel := by rw [hl]; decide
  have hb := ZapWrap.Init_built env z (by rw [hp]; exact hOpen)
  rw [hp, hl'] at hb
  cases hs : z.Sugar with
  | false =>
    rw [hs] at hb
    refine ⟨_, hb, rfl, ?_, ?_, ?_⟩
    · simp [ZapWrap.Info, ZapWrap.apply, zap.Logger.call, zap.Logger.log, zap.Enabled,
        zap.DPanicLevel, zap.InfoLevel]
    · simp [ZapWrap.Error, ZapWrap.apply, zap.Logger.call, zap.Logger.log, zap.Enabled,
        zap.DPanicLevel, zap.ErrorLevel]
    · intro h
      cases h
  | true =>
    rw [hs] at hb
    refine ⟨_, hb, rfl, ?_, ?_, ?_⟩
    · simp [ZapWrap.Info, ZapWrap.apply, zap.SugaredLogger.call, zap.Logger.log, zap.Enabled,
        zap.DPanicLevel, zap.InfoLevel]
    · simp [ZapWrap.Error, ZapWrap.apply, zap.SugaredLogger.call, zap.Logger.log, zap.Enabled,
        zap.DPanicLevel, zap.ErrorLevel]
    · intro _
      constructor
      · simp [ZapWrap.Debug, ZapWrap.apply, zap.SugaredLogger.call, zap.Logger.log,
          zap.Enabled, zap.DPanicLevel, zap.DebugLevel]
      · simp [ZapWrap.Warn, ZapWrap.apply, zap.SugaredLogger.call, zap.Logger.log,
          zap.Enabled, zap.DPanicLevel, zap.WarnLevel]

theorem ZapWrap_NONE_with_paths_emits_nothing_witness :
    ∃ z', ZapWrap.Init openSinks (newZapWrap true ["app.log"] NONE) = .returned (z', none) ∧
      z'.Warn 2 "low disk" [] = .returned [Event.engineCall true zap.WarnLevel "low disk"] := by
  obtain ⟨z', h₁, _, _, _, h₂⟩ :=
    ZapWrap_NONE_with_paths_emits_nothing openSinks (newZapWrap true ["app.log"] NONE)
      "low disk" [] 0 rfl (by decide) rfl
  exact ⟨z', h₁, (h₂ rfl).2⟩

/-- C5 (as stated) fails: with `Level` NONE and empty `Paths` the level is
not applied, and a sugared Info both invokes the engine and has its entry
emitted on the default stream; with `Paths` not empty Info still invokes the
engine. -/
theorem ZapWrap_NONE_counterexample :
    (∃ z', ZapWrap.Init openSinks (newZapWrap true [] NONE) = .returned (z', none) ∧
      z'.Info 2 "hello" [] = .returned
        [Event.engineCall true zap.InfoLevel "hello",
         Event.engineEntry ["stderr"] zap.InfoLevel "hello"]) ∧
    (∃ z', ZapWrap.Init openSinks (newZapWrap true ["app.log"] NONE) = .returned (z', none) ∧
      z'.Info 2 "hello" [] = .returned [Event.engineCall true zap.InfoLevel "hello"]) := by
  constructor
  · exact ⟨_, rfl, by decide⟩
  · exact ⟨_, rfl, by decide⟩

/-- C6 (the code departs from it): after `Init` has returned nil on a
non-sugared ZapWrap, whatever its paths, level and surroundings, Debug and
Warn do not return: for every bound `n` on the stack depth they exhaust it,
because `debugFunc` calls `z.Debug` and `warnFunc` calls `z.Warn`. -/
theorem ZapWrap_plain_Debug_Warn_overflow (env : zap.Sinks) (p : List String) (v : Int)
    (m : String) (w : World) (n : Nat) :
    ∃ z', ZapWrap.Init env (newZapWrap false p v) = .returned (z', none) ∧
      z'.Debug n m w = .stackOverflow ∧ z'.Warn n m w = .stackOverflow := by
  obtain ⟨z', hI, hd, hw⟩ := ZapWrap.Init_plain env (newZapWrap false p v) rfl
  exact ⟨z', hI, (ZapWrap.Debug_self z' m w hd n).1, (ZapWrap.Warn_self z' m w hw n).1⟩

/-- C7 (the code departs from it): when the configured destination cannot be
opened, `Build` fails, yet a non-sugared `Init` returns nil and leaves a nil
engine, on which Info then panics; a sugared `Init` panics instead of
returning an error. -/
theorem ZapWrap_Init_drops_build_error :
    (newZapWrap false ["/root/forbidden.log"] INFO).config.Build closedSinks 2 =
        .error (GoError.external "open sink: permission denied") ∧
    (∃ z', ZapWrap.Init closedSinks (newZapWrap false ["/root/forbidden.log"] INFO) =
        .returned (z', none) ∧ z'.ZapLogger = none ∧ z'.Info 2 "hello" [] = .panicked) ∧
    ZapWrap.Init closedSinks (newZapWrap true ["/root/forbidden.log"] INFO) = .panicked := by
  refine ⟨rfl, ⟨_, rfl, rfl, by decide⟩, rfl⟩

/-- C10: for a ZapWrap with `Paths` not empty and `Level` T one of DEBUG, INFO,
WARN, ERROR, NONE, `Init` configures the engine with output paths `Paths` and
minimum level map(T) (DEBUG to Debug, INFO to Info, WARN to Warn, ERROR to
Error, NONE to DPanic), and the engine built from it carries both.  The map is
strictly order-preserving on the five constants, map(NONE) is strictly above
the engine level of each of the four leveled calls, and the engine level of a
facade level L among DEBUG..ERROR passes the configured minimum exactly when
`T ≤ L`.  In sugared mode the four calls reach the engine at these levels. -/
theorem ZapWrap_level_mapping (z : ZapWrap) (hPaths : z.Paths ≠ [])
    (hT : z.Level = DEBUG ∨ z.Level = INFO ∨ z.Level = WARN ∨ z.Level = ERROR ∨
      z.Level = NONE) :
    z.config.OutputPaths = z.Paths ∧
    z.config.Level = specLevelMap z.Level ∧
    (specLevelMap DEBUG = zap.DebugLevel ∧ specLevelMap INFO = zap.InfoLevel ∧
      specLevelMap WARN = zap.WarnLevel ∧ specLevelMap ERROR = zap.ErrorLevel ∧
      specLevelMap NONE = zap.DPanicLevel) ∧
    (∀ T₁ T₂ : Int, DEBUG ≤ T₁ → T₁ < T₂ → T₂ ≤ NONE →
      specLevelMap T₁ < specLevelMap T₂) ∧
    (∀ L : Int, DEBUG ≤ L → L ≤ ERROR → specLevelMap L < specLevelMap NONE) ∧
    (∀ L : Int, DEBUG ≤ L → L ≤ ERROR →
      (zap.Enabled z.config.Level (specLevelMap L) = true ↔ z.Level ≤ L)) ∧
    (∀ (env : zap.Sinks) (m : String) (w : World) (n : Nat),
      env.openSinks z.Paths = none →
      ∃ z', ZapWrap.Init env z = .returned (z', none) ∧
        z'.ZapLogger = some ⟨specLevelMap z.Level, z.Paths, 2⟩ ∧
        (z.Sugar = true →
          z'.Debug (n + 2) m w = .returned
            (zap.Logger.log ⟨specLevelMap z.Level, z.Paths, 4⟩ true (specLevelMap DEBUG) m w) ∧
          z'.Info (n + 2) m w = .returned
            (zap.Logger.log ⟨specLevelMap z.Level, z.Paths, 4⟩ true (specLevelMap INFO) m w) ∧
          z'.Warn (n + 2) m w = .returned
            (zap.Logger.log ⟨specLevelMap z.Level, z.Paths, 4⟩ true (specLevelMap WARN) m w) ∧
          z'.Error (n + 2) m w = .returned
            (zap.Logger.log ⟨specLevelMap z.Level, z.Paths, 4⟩ true (specLevelMap ERROR) m w))) := by
  have hp := ZapWrap.config_paths z hPaths
  have hl := ZapWrap.config_level z hPaths hT
  have hmono : ∀ T₁ T₂ : Int, DEBUG ≤ T₁ → T₁ < T₂ → T₂ ≤ NONE →
      specLevelMap T₁ < specLevelMap T₂ := by
    intro T₁ T₂ h₁ h₂ h₃
    simp only [DEBUG, NONE] at h₁ h₃
    have h₄ : T₁ ≤ 3 := by omega
    have h₅ : 1 ≤ T₂ := by omega
    interval_cases T₁ <;> interval_cases T₂ <;> first | omega | decide
  have hpass : ∀ L : Int, DEBUG ≤ L → L ≤ ERROR →
      (zap.Enabled z.config.Level (specLevelMap L) = true ↔ z.Level ≤ L) := by
    intro L h₁ h₂
    rw [hl]
    simp only [DEBUG, ERROR] at h₁ h₂
    rcases hT with h | h | h | h | h <;> rw [h] <;> interval_cases L <;>
      simp [zap.Enabled, specLevelMap, DEBUG, INFO, WARN, ERROR, NONE, zap.DebugLevel,
        zap.InfoLevel, zap.WarnLevel, zap.ErrorLevel, zap.DPanicLevel]
  refine ⟨hp, hl, by decide, hmono, ?_, hpass, ?_⟩
  · intro L h₁ h₂
    exact hmono L NONE h₁ (lt_of_le_of_lt h₂ (by decide)) (le_refl _)
  · intro env m w n hOpen
    have hb := ZapWrap.Init_built env z (by rw [hp]; exact hOpen)
    rw [hp, hl] at hb
    cases hs : z.Sugar with
    | false =>
      rw [hs] at hb
      exact ⟨_, hb, rfl, fun h => by cases h⟩
    | true =>
      rw [hs] at hb
      refine ⟨_, hb, rfl, fun _ => ⟨?_, ?_, ?_, ?_⟩⟩
      · simp [ZapWrap.Debug, ZapWrap.apply, zap.SugaredLogger.call, specLevelMap, DEBUG]
      · simp [ZapWrap.Info, ZapWrap.apply, zap.SugaredLogger.call, specLevelMap, DEBUG, INFO]
      · simp [ZapWrap.Warn, ZapWrap.apply, zap.SugaredLogger.call, specLevelMap, DEBUG, INFO,
          WARN]
      · simp [ZapWrap.Error, ZapWrap.apply, zap.SugaredLogger.call, specLevelMap, DEBUG, INFO,
          WARN, ERROR]

theorem ZapWrap_level_mapping_witness :
    (newZapWrap true ["app.log"] WARN).config = ⟨zap.WarnLevel, ["app.log"]⟩ ∧
    (zap.Enabled (newZapWrap true ["app.log"] WARN).config.Level (specLevelMap INFO) = true ↔
      WARN ≤ INFO) := by
  have h := ZapWrap_level_mapping (newZapWrap true ["app.log"] WARN) (by decide)
    (Or.inr (Or.inr (Or.inl rfl)))
  exact ⟨by decide, h.2.2.2.2.2.1 INFO (by decide) (by decide)⟩

/-! ## The claims about testLogger -/

/-- C8: for a testLogger bound to the test context `t` and every message,
Warn and Error each return after exactly one call of the context's `Error`
with that message, after which the run is failed; Info and Debug each return
after exactly one call of the context's `Log` with that message and nothing
else, which leaves the failed state of every context as it was. -/
theorem testLogger_routes_to_context (t : TB) (m : String) (w : World) :
    (testLogger.mk (some t)).Warn m w = .returned (w ++ [Event.tbError t m]) ∧
    (testLogger.mk (some t)).Error m w = .returned (w ++ [Event.tbError t m]) ∧
    Failed t (w ++ [Event.tbError t m]) = true ∧
    (testLogger.mk (some t)).Info m w = .returned (w ++ [Event.tbLog t m]) ∧
    (testLogger.mk (some t)).Debug m w = .returned (w ++ [Event.tbLog t m]) ∧
    (∀ u, Failed u (w ++ [Event.tbLog t m]) = Failed u w) := by
  refine ⟨rfl, rfl, ?_, rfl, rfl, ?_⟩
  · simp [Failed]
  · intro u
    simp [Failed]

/-- C9: `testLogger.Init` returns an error exactly when no test context is
bound (the error is the one made by `errors.New`), returns nil otherwise, and
leaves the logger, hence the bound context, unchanged.  `NewTestLogger t` is
the logger built from `t` after one call of `Init`, and it is bound to `t`. -/
theorem testLogger_Init_error_iff (l : testLogger) (t : Option TB) :
    ((testLogger.Init l).2 ≠ none ↔ l.t = none) ∧
    ((testLogger.Init l).2 = none ↔ l.t ≠ none) ∧
    ((testLogger.Init (testLogger.mk none)).2 =
      some (GoError.errorString "You must set testLogger.t")) ∧
    (testLogger.Init l).1 = l ∧
    NewTestLogger t = (testLogger.Init (testLogger.mk t)).1 ∧
    (NewTestLogger t).t = t := by
  have h1 : (testLogger.Init l).1 = l := by
    unfold testLogger.Init
    split <;> rfl
  have h2 : ∀ k : testLogger, NewTestLogger k.t = (testLogger.Init k).1 := by
    intro k
    rfl
  refine ⟨?_, ?_, rfl, h1, h2 ⟨t⟩, ?_⟩
  · cases l with
    | mk lt => cases lt <;> simp [testLogger.Init]
  · cases l with
    | mk lt => cases lt <;> simp [testLogger.Init]
  · have h3 := h2 ⟨t⟩
    simp only [] at h3
    rw [h3]
    unfold testLogger.Init
    split <;> rfl

end ilog
